import Mathlib

/-!
# Verification of the aiot-shared-packages authentication/authorization core

Shallow embedding, in Lean 4, of the JWT authentication middleware, the RBAC
permission middleware, the JWT blacklist service, the Redis base service and
the paginated-response helper of the `aiot-shared-packages` repository,
together with theorems settling the specification's claims about them.

Conventions of the embedding:
* JavaScript values that may be `undefined` at runtime are `Option`s.
* JavaScript truthiness tests on numbers/strings are made explicit
  (`0`, `""` and `undefined` are falsy).
* Exceptions thrown by an operation are an `Except.error`; a `try`/`catch`
  block is a `match` on that `Except`.
* External library calls with no algorithmic content in this repository
  (the `jsonwebtoken` verifier, the SHA-256 hash of `crypto`) are abstracted
  as function parameters; every theorem quantifies over them.
-/

namespace Aiot

/-! ## Data model

`DecodedPayload` models the JavaScript object returned by a successful
`jwt.verify` call: every claim field may be absent at runtime, whatever the
TypeScript interface cast (`as JwtPayload`) pretends. Both the HTTP variant
(`src/AuthMiddleware.ts`, interface with `sub : number`) and the socket
variant (`WebSocketAuthMiddleware`, interface with `userId`, `username`)
read their fields from this one runtime object. -/

structure DecodedPayload where
  sub : Option Int
  userId : Option String
  username : Option String
  roles : Option (List String)
  permissions : Option (List String)
  iat : Option Int
  exp : Option Int
  deriving Repr, DecidableEq

/-- The abstracted `jwt.verify(token, secret)` call: for a fixed secret it is
a function from the raw token string to either a thrown error (malformed
token, bad signature, expired) or the decoded payload object. -/
def JwtVerifier := String → Except String DecodedPayload

/-- JavaScript truthiness of a possibly-undefined number: `undefined` and `0`
are falsy. -/
def jsTruthyInt : Option Int → Bool
  | none => false
  | some n => n != 0

/-- JavaScript truthiness of a possibly-undefined string: `undefined` and `""`
are falsy. -/
def jsTruthyStr : Option String → Bool
  | none => false
  | some s => s != ""

/-- Template interpolation `` `user_${decoded.sub}` ``: an absent field prints
as `undefined`. -/
def jsShowOptInt : Option Int → String
  | none => "undefined"
  | some n => toString n

/-- `s.startsWith('Bearer ')`, case-sensitive on exactly that prefix; the
test is carried out on the character list, which is extensionally the same
predicate. -/
def startsWithBearer (s : String) : Bool :=
  "Bearer ".data.isPrefixOf s.data

/-! ## HTTP request and the identity context

`src/AuthMiddleware.ts` reads `req.cookies.jwt` and `req.headers.authorization`
and writes `req.user = { id: decoded.sub, username: user_<sub> }`. -/

structure HttpRequest where
  cookieJwt : Option String
  authHeader : Option String
  deriving Repr, DecidableEq

/-- The identity context attached as `req.user`. `id` keeps the
possibly-absent runtime value of `decoded.sub`. -/
structure ReqUser where
  id : Option Int
  username : String
  deriving Repr, DecidableEq

/-- Outcome of running an Express middleware on one request: the HTTP status
and message sent (if any), the identity context attached (if any), and how
many times `next()` was invoked. -/
structure GateResult where
  status : Option Nat
  message : Option String
  user : Option ReqUser
  nextCalls : Nat
  deriving Repr, DecidableEq

namespace AuthMiddleware

/-- `AuthMiddleware.extractToken` (src/AuthMiddleware.ts:216-229): the
`jwt` cookie first (truthiness test `req.cookies && req.cookies.jwt`), then
the `Authorization` header when it starts with `Bearer `, stripping exactly
that prefix. -/
def extractToken (req : HttpRequest) : Option String :=
  if jsTruthyStr req.cookieJwt then req.cookieJwt
  else
    match req.authHeader with
    | some h => if startsWithBearer h then some (h.drop 7) else none
    | none => none

/-- `AuthMiddleware.verifyToken` (src/AuthMiddleware.ts:249-261): call
`jwt.verify` and return the decoded payload; any thrown error is caught and
collapsed to `null`. No field of the payload is inspected. -/
def verifyToken (verify : JwtVerifier) (token : String) : Option DecodedPayload :=
  match verify token with
  | .error _ => none
  | .ok d => some d

/-- `AuthMiddleware.authenticate` (src/AuthMiddleware.ts:117-147), required
mode: no token → 401 `Access token required`; verification failure → 401
`Invalid or expired token`; success → attach
`req.user = { id: decoded.sub, username: user_<sub> }` and call `next()`. -/
def authenticate (verify : JwtVerifier) (req : HttpRequest) : GateResult :=
  match extractToken req with
  | none =>
      { status := some 401, message := some "Access token required"
        user := none, nextCalls := 0 }
  | some token =>
      match verifyToken verify token with
      | none =>
          { status := some 401, message := some "Invalid or expired token"
            user := none, nextCalls := 0 }
      | some decoded =>
          { status := none, message := none
            user := some { id := decoded.sub
                           username := "user_" ++ jsShowOptInt decoded.sub }
            nextCalls := 1 }

/-- `AuthMiddleware.optional` (src/AuthMiddleware.ts:168-199): same pipeline
but every failure falls through to `next()` with no identity context. -/
def optional (verify : JwtVerifier) (req : HttpRequest) : GateResult :=
  match extractToken req with
  | none => { status := none, message := none, user := none, nextCalls := 1 }
  | some token =>
      match verifyToken verify token with
      | none => { status := none, message := none, user := none, nextCalls := 1 }
      | some decoded =>
          { status := none, message := none
            user := some { id := decoded.sub
                           username := "user_" ++ jsShowOptInt decoded.sub }
            nextCalls := 1 }

end AuthMiddleware

/-! ## WebSocket authentication middleware

`WebSocketAuthMiddleware` (src/unnamed/part_003): Socket.IO handshake, token
extraction from query / header / auth payload, verification with required
field and expiry checks, and the `hasPermission` / `hasRole` helpers. -/

/-- The Socket.IO handshake fields read by `extractToken`:
`query.token`, `headers.authorization` (or `headers.Authorization`), and
`auth.token`. A field is `none` when absent or not a string. -/
structure Handshake where
  queryToken : Option String
  authHeader : Option String
  authToken : Option String
  deriving Repr, DecidableEq

/-- The `socket.user` record set on successful socket authentication. -/
structure SocketUser where
  userId : String
  username : String
  roles : List String
  permissions : List String
  deriving Repr, DecidableEq

/-- The authentication-relevant state of an `AuthenticatedSocket`. -/
structure AuthenticatedSocket where
  isAuthenticated : Bool
  user : Option SocketUser
  deriving Repr, DecidableEq

namespace WebSocketAuthMiddleware

/-- `WebSocketAuthMiddleware.extractToken` (src/unnamed/part_003:216-239).
The source consults, in this order: (1) `query.token` when it is a truthy
string, (2) the `Authorization` header when it starts with `Bearer `
(stripping exactly that prefix), (3) `auth.token` when it is a string
(no truthiness test there — an empty string is returned as-is). -/
def extractToken (h : Handshake) : Option String :=
  if jsTruthyStr h.queryToken then h.queryToken
  else
    match h.authHeader with
    | some ah =>
        if startsWithBearer ah then some (ah.drop 7)
        else h.authToken
    | none => h.authToken

/-- `WebSocketAuthMiddleware.verifyToken` (src/unnamed/part_003:250-276):
`jwt.verify`, then the required-field check
(`!payload.userId || !payload.username` → `null`), then the expiry check
(`payload.exp && Date.now() >= payload.exp * 1000` → `null`); every thrown
error is caught and collapsed to `null`. `nowMs` is `Date.now()` in
milliseconds. -/
def verifyToken (verify : JwtVerifier) (nowMs : Int) (token : String) :
    Option DecodedPayload :=
  match verify token with
  | .error _ => none
  | .ok p =>
      if ¬ jsTruthyStr p.userId then none
      else if ¬ jsTruthyStr p.username then none
      else
        match p.exp with
        | some e => if e ≠ 0 ∧ nowMs ≥ e * 1000 then none else some p
        | none => some p

/-- The socket state written by `authenticateSocket` on successful
verification (src/unnamed/part_003:169-175): `roles` and `permissions`
default to `[]`. -/
def socketOnSuccess (p : DecodedPayload) : AuthenticatedSocket :=
  { isAuthenticated := true
    user := some { userId := p.userId.getD ""
                   username := p.username.getD ""
                   roles := p.roles.getD []
                   permissions := p.permissions.getD [] } }

/-- `WebSocketAuthMiddleware.hasPermission` (src/unnamed/part_003:312-320):
false when not authenticated or no user; otherwise the permission list
contains the required permission, or the role list contains `admin`. -/
def hasPermission (s : AuthenticatedSocket) (requiredPermission : String) : Bool :=
  match s.user with
  | none => false
  | some u =>
      if ¬ s.isAuthenticated then false
      else u.permissions.contains requiredPermission || u.roles.contains "admin"

/-- `WebSocketAuthMiddleware.hasRole` (src/unnamed/part_003:329-335). -/
def hasRole (s : AuthenticatedSocket) (requiredRole : String) : Bool :=
  match s.user with
  | none => false
  | some u =>
      if ¬ s.isAuthenticated then false
      else u.roles.contains requiredRole

end WebSocketAuthMiddleware

/-! ## RBAC permission middleware

`PermissionMiddleware` (src/PermissionMiddleware.ts): four middleware
factories sharing one shape — authentication guard, permission-service
lookup, 401/403/next()/500 outcomes. The permission-lookup service is
abstracted as a function returning `Except` (it can throw). -/

/-- Outcome of one permission-middleware run: the HTTP status sent (if any),
the `error` code of the JSON body (if any), the `required` diagnostic of a
403 body, and whether `next()` was invoked. -/
structure MwResult where
  status : Option Nat
  errorCode : Option String
  requiredInfo : List String
  nextCalled : Bool
  deriving Repr, DecidableEq

namespace PermissionMiddleware

/-- The authentication guard `!req.user || !req.user.id` shared by all four
middlewares: fails when no identity is attached, or the attached identity's
`id` is falsy (absent or `0`). -/
def userGuardFails (user : Option ReqUser) : Bool :=
  match user with
  | none => true
  | some u => ¬ jsTruthyInt u.id

/-- The common 401 response (`USER_NOT_AUTHENTICATED`). -/
def resp401 : MwResult :=
  { status := some 401, errorCode := some "USER_NOT_AUTHENTICATED"
    requiredInfo := [], nextCalled := false }

/-- `PermissionMiddleware.requirePermission` (src/PermissionMiddleware.ts:123-168)
applied to one request. `svc` is `permissionService.userHasPermission`
(it receives `req.user.id` and may throw). -/
def requirePermission (svc : Option Int → String → Except String Bool)
    (permissionName : String) (user : Option ReqUser) : MwResult :=
  if userGuardFails user then resp401
  else
    match svc (user.bind ReqUser.id) permissionName with
    | .error _ =>
        { status := some 500, errorCode := some "PERMISSION_CHECK_ERROR"
          requiredInfo := [], nextCalled := false }
    | .ok true =>
        { status := none, errorCode := none, requiredInfo := [], nextCalled := true }
    | .ok false =>
        { status := some 403, errorCode := some "INSUFFICIENT_PERMISSIONS"
          requiredInfo := [permissionName], nextCalled := false }

/-- `PermissionMiddleware.requireAnyPermission`
(src/PermissionMiddleware.ts:185-223). `svc` is
`permissionService.userHasAnyPermission`. -/
def requireAnyPermission (svc : Option Int → List String → Except String Bool)
    (permissions : List String) (user : Option ReqUser) : MwResult :=
  if userGuardFails user then resp401
  else
    match svc (user.bind ReqUser.id) permissions with
    | .error _ =>
        { status := some 500, errorCode := some "PERMISSION_CHECK_ERROR"
          requiredInfo := [], nextCalled := false }
    | .ok true =>
        { status := none, errorCode := none, requiredInfo := [], nextCalled := true }
    | .ok false =>
        { status := some 403, errorCode := some "INSUFFICIENT_PERMISSIONS"
          requiredInfo := permissions, nextCalled := false }

/-- `PermissionMiddleware.requireAllPermissions`
(src/PermissionMiddleware.ts:240-278). `svc` is
`permissionService.userHasAllPermissions`. -/
def requireAllPermissions (svc : Option Int → List String → Except String Bool)
    (permissions : List String) (user : Option ReqUser) : MwResult :=
  if userGuardFails user then resp401
  else
    match svc (user.bind ReqUser.id) permissions with
    | .error _ =>
        { status := some 500, errorCode := some "PERMISSION_CHECK_ERROR"
          requiredInfo := [], nextCalled := false }
    | .ok true =>
        { status := none, errorCode := none, requiredInfo := [], nextCalled := true }
    | .ok false =>
        { status := some 403, errorCode := some "INSUFFICIENT_PERMISSIONS"
          requiredInfo := permissions, nextCalled := false }

/-- `PermissionMiddleware.requireRole` (src/PermissionMiddleware.ts:295-333).
`svc` is `permissionService.userHasRole`. -/
def requireRole (svc : Option Int → String → Except String Bool)
    (roleName : String) (user : Option ReqUser) : MwResult :=
  if userGuardFails user then resp401
  else
    match svc (user.bind ReqUser.id) roleName with
    | .error _ =>
        { status := some 500, errorCode := some "ROLE_CHECK_ERROR"
          requiredInfo := [], nextCalled := false }
    | .ok true =>
        { status := none, errorCode := none, requiredInfo := [], nextCalled := true }
    | .ok false =>
        { status := some 403, errorCode := some "INSUFFICIENT_ROLE"
          requiredInfo := [roleName], nextCalled := false }

end PermissionMiddleware

/-! ## JWT blacklist service

`JwtBlacklistService` (src/unnamed/part_005): a Redis-backed revocation
store. The Redis client is modelled as a key-value state whose operations
all throw when the connection is failing; values are the
`blacklistData` records (the source stores their `JSON.stringify`
serialization, which is always a nonempty — hence truthy — string, so the
record itself is stored here). `createHash('sha256')...digest('hex')` is
abstracted as a function parameter `sha256hex`. -/

/-- The `blacklistData` value written by `addToBlacklist`; the two ISO date
strings are kept as the timestamps they serialize. -/
structure BlacklistData where
  reason : String
  blacklistedAt : Int
  expiresAt : Int
  deriving Repr, DecidableEq

/-- The Redis store backing the blacklist: entries `(key, ttl, value)` and a
flag for a failing connection (every operation on a failing store throws). -/
structure RedisStore where
  failing : Bool
  entries : List (String × Int × BlacklistData)
  deriving Repr, DecidableEq

/-- `redisClient.setEx(key, ttl, value)`: throws on a failing store,
otherwise replaces the entry at `key`. -/
def redisSetEx (st : RedisStore) (key : String) (ttl : Int) (v : BlacklistData) :
    Except String RedisStore :=
  if st.failing then .error "redis unavailable"
  else .ok { st with
             entries := (key, ttl, v) :: st.entries.filter (fun e => e.1 ≠ key) }

/-- `redisClient.get(key)`: throws on a failing store, otherwise the stored
value or `null`. -/
def redisGet (st : RedisStore) (key : String) : Except String (Option BlacklistData) :=
  if st.failing then .error "redis unavailable"
  else .ok ((st.entries.find? (fun e => e.1 = key)).map (fun e => e.2.2))

namespace JwtBlacklistService

/-- The fixed key prefix `jwt_blacklist:` (src/unnamed/part_005:28). -/
def keyPrefix : String := "jwt_blacklist:"

/-- `JwtBlacklistService.getRedisKey` (src/unnamed/part_005:186-190):
the prefix concatenated with the hex SHA-256 of the raw token. -/
def getRedisKey (sha256hex : String → String) (token : String) : String :=
  keyPrefix ++ sha256hex token

/-- `JwtBlacklistService.addToBlacklist` (src/unnamed/part_005:68-88):
`ttl = max(expiresAt - now, 1)` with `now = floor(Date.now()/1000)`;
`setEx` under the hashed key; the `catch` block logs and rethrows, so a
store error propagates to the caller. -/
def addToBlacklist (sha256hex : String → String) (now : Int) (st : RedisStore)
    (token : String) (expiresAt : Int) (reason : String) :
    Except String RedisStore :=
  let key := getRedisKey sha256hex token
  let ttl := max (expiresAt - now) 1
  redisSetEx st key ttl
    { reason := reason, blacklistedAt := now, expiresAt := expiresAt }

/-- `JwtBlacklistService.isBlacklisted` (src/unnamed/part_005:96-112):
`get` under the hashed key, `true` on a truthy result; the `catch` block
returns `false` (fail open). -/
def isBlacklisted (sha256hex : String → String) (st : RedisStore)
    (token : String) : Bool :=
  match redisGet st (getRedisKey sha256hex token) with
  | .error _ => false
  | .ok r => r.isSome

/-- `JwtBlacklistService.removeFromBlacklist` (src/unnamed/part_005:120-131):
`del` under the hashed key; a store error propagates (rethrow in `catch`). -/
def removeFromBlacklist (sha256hex : String → String) (st : RedisStore)
    (token : String) : Except String (Bool × RedisStore) :=
  if st.failing then .error "redis unavailable"
  else
    let key := getRedisKey sha256hex token
    let remaining := st.entries.filter (fun e => e.1 ≠ key)
    .ok (remaining.length < st.entries.length, { st with entries := remaining })

end JwtBlacklistService

/-! ## Redis base service

`BaseRedisService` (src/services/redis/BaseRedisService.ts): construction
establishes the availability flag once; `safeRedisOperation` /
`safeRedisWrite` return fallbacks on unavailability or thrown errors but
never change the flag; `reconnectRedis` re-runs initialization. -/

/-- The mutable state of a `BaseRedisService` instance: whether a client
object is held (`redisClient !== null`) and the `isRedisAvailable` flag. -/
structure RedisServiceState where
  clientPresent : Bool
  isRedisAvailable : Bool
  deriving Repr, DecidableEq

namespace BaseRedisService

/-- `initializeRedisConnection` (BaseRedisService.ts:110-130): `envOk` is
whether `getRedisClient()` returns without throwing. Success sets both
fields true, failure sets both false. -/
def initializeRedisConnection (envOk : Bool) : RedisServiceState :=
  if envOk then { clientPresent := true, isRedisAvailable := true }
  else { clientPresent := false, isRedisAvailable := false }

/-- Constructor tail (BaseRedisService.ts:94-101): the availability state is
whatever initialization produced. -/
def construct (envOk : Bool) : RedisServiceState :=
  initializeRedisConnection envOk

/-- `getRedisClient` (BaseRedisService.ts:140-142): the client when
available, else `null` — modelled as whether a client is handed out. -/
def getRedisClient (st : RedisServiceState) : Bool :=
  st.isRedisAvailable && st.clientPresent

/-- `isRedisEnabled` (BaseRedisService.ts:150-152). -/
def isRedisEnabled (st : RedisServiceState) : Bool :=
  st.isRedisAvailable

/-- Result of one `safeRedisOperation` run: the returned value, the state of
the service afterwards, and whether the backend operation was invoked. -/
structure OpResult (α : Type) where
  value : α
  state : RedisServiceState
  touchedBackend : Bool
  deriving Repr, DecidableEq

/-- `safeRedisOperation` (BaseRedisService.ts:165-190): no client → return
the fallback without touching the backend; otherwise run the operation,
returning its value, or the fallback when it throws. No branch writes
`isRedisAvailable`, so the state is returned unchanged in all cases. -/
def safeRedisOperation {α : Type} (st : RedisServiceState)
    (operation : Except String α) (fallbackValue : α) : OpResult α :=
  if ¬ getRedisClient st then
    { value := fallbackValue, state := st, touchedBackend := false }
  else
    match operation with
    | .ok v => { value := v, state := st, touchedBackend := true }
    | .error _ => { value := fallbackValue, state := st, touchedBackend := true }

/-- `safeRedisWrite` (BaseRedisService.ts:202-226): same shape, returning
whether the write succeeded. -/
def safeRedisWrite (st : RedisServiceState) (operation : Except String Unit) :
    OpResult Bool :=
  if ¬ getRedisClient st then
    { value := false, state := st, touchedBackend := false }
  else
    match operation with
    | .ok _ => { value := true, state := st, touchedBackend := true }
    | .error _ => { value := false, state := st, touchedBackend := true }

/-- `reconnectRedis` (BaseRedisService.ts:273-281): re-run initialization
and report the resulting availability. -/
def reconnectRedis (envOk : Bool) (_st : RedisServiceState) :
    Bool × RedisServiceState :=
  let st' := initializeRedisConnection envOk
  (st'.isRedisAvailable, st')

end BaseRedisService

/-! ## Response wrapper

`ResResult` (src/utils/ResResult.ts) and its pagination helper. -/

/-- `PaginationInfo` (src/types/PaginationTypes.ts). -/
structure PaginationInfo where
  currentPage : Nat
  pageSize : Nat
  totalCount : Nat
  totalPages : Nat
  hasNext : Bool
  hasPrevious : Bool
  deriving Repr, DecidableEq

/-- `ResResult` fields: HTTP status, message, data and optional pagination. -/
structure ResResult (α : Type) where
  status : Nat
  message : String
  data : Option α
  pagination : Option PaginationInfo
  deriving Repr, DecidableEq

namespace ResResult

/-- `Math.ceil(totalCount / pageSize)` on natural inputs with a positive
divisor: ceiling division. -/
def mathCeilDiv (totalCount pageSize : Nat) : Nat :=
  (totalCount + pageSize - 1) / pageSize

/-- `ResResult.successPaginated` (src/utils/ResResult.ts:107-128). -/
def successPaginated {α : Type} (message : String) (data : List α)
    (currentPage pageSize totalCount : Nat) : ResResult (List α) :=
  let totalPages := mathCeilDiv totalCount pageSize
  let hasNext := currentPage < totalPages
  let hasPrevious := currentPage > 1
  { status := 200
    message := message
    data := some data
    pagination := some
      { currentPage := currentPage, pageSize := pageSize
        totalCount := totalCount, totalPages := totalPages
        hasNext := hasNext, hasPrevious := hasPrevious } }

/-- `ResResult.success` (src/utils/ResResult.ts:92-94). -/
def success {α : Type} (message : String) (data : Option α)
    (pagination : Option PaginationInfo) : ResResult α :=
  { status := 200, message := message, data := data, pagination := pagination }

end ResResult

/-! ## Concrete instances

Small concrete verifiers, payloads, requests and stores used to evaluate the
embedding at specific inputs. -/

/-- Payload of the end-to-end scenario token:
`{sub: 42, username: "alice", roles: ["admin"], exp: now+3600}`. -/
def payAlice : DecodedPayload :=
  { sub := some 42, userId := none, username := some "alice"
    roles := some ["admin"], permissions := none, iat := none, exp := some 7200 }

/-- A verifier (fixed secret) accepting exactly the token string `tokA`,
decoding it to `payAlice`. -/
def verifierA : JwtVerifier := fun t =>
  if t = "tokA" then .ok payAlice else .error "invalid signature"

/-- Request presenting `tokA` via `Authorization: Bearer tokA`. -/
def reqBearerA : HttpRequest := { cookieJwt := none, authHeader := some "Bearer tokA" }

/-- Request with no token anywhere. -/
def reqEmpty : HttpRequest := { cookieJwt := none, authHeader := none }

/-- A payload with no subject and no user id, but a username: what
`jwt.verify` yields for a signed token whose claims omit `sub`/`userId`. -/
def payNoSub : DecodedPayload :=
  { sub := none, userId := none, username := some "bob"
    roles := none, permissions := none, iat := none, exp := none }

/-- A verifier accepting exactly `tokB`, decoding it to `payNoSub`. -/
def verifierB : JwtVerifier := fun t =>
  if t = "tokB" then .ok payNoSub else .error "invalid signature"

/-- An identity context with the falsy user id `0`, as attached by the
required-mode gate for a verified token with `sub = 0`. -/
def userZero : ReqUser := { id := some 0, username := "user_0" }

/-- An identity context with a truthy user id. -/
def userSeven : ReqUser := { id := some 7, username := "user_7" }

/-- A permission-lookup stub answering `false` to every single-name query. -/
def svcDenyOne : Option Int → String → Except String Bool := fun _ _ => .ok false

/-- A permission-lookup stub answering `true` to every single-name query. -/
def svcGrantOne : Option Int → String → Except String Bool := fun _ _ => .ok true

/-- A permission-lookup stub throwing on every single-name query. -/
def svcThrowOne : Option Int → String → Except String Bool := fun _ _ => .error "db down"

/-- A permission-lookup stub answering `false` to every list query. -/
def svcDenyMany : Option Int → List String → Except String Bool := fun _ _ => .ok false

/-- A permission-lookup stub answering `true` to every list query. -/
def svcGrantMany : Option Int → List String → Except String Bool := fun _ _ => .ok true

/-- A permission-lookup stub throwing on every list query. -/
def svcThrowMany : Option Int → List String → Except String Bool := fun _ _ => .error "db down"

/-- A stand-in for the hex SHA-256 digest used in concrete evaluations. -/
def hashH : String → String := fun s => "sha256(" ++ s ++ ")"

/-- A healthy, empty Redis store. -/
def storeOk : RedisStore := { failing := false, entries := [] }

/-- A failing Redis store. -/
def storeDown : RedisStore := { failing := true, entries := [] }

/-- A healthy store already holding the revocation entry for token `t1`. -/
def storeWithT1 : RedisStore :=
  { failing := false
    entries := [(JwtBlacklistService.getRedisKey hashH "t1", 60,
                 { reason := "logout", blacklistedAt := 0, expiresAt := 60 })] }

/-- A socket authenticated as an admin with an empty permission list. -/
def socketAdmin : AuthenticatedSocket :=
  { isAuthenticated := true
    user := some { userId := "42", username := "alice"
                   roles := ["admin"], permissions := [] } }

/-- An unauthenticated socket. -/
def socketAnon : AuthenticatedSocket := { isAuthenticated := false, user := none }

/-- A handshake carrying both a query-string token and an auth-payload token. -/
def handshakeBoth : Handshake :=
  { queryToken := some "qtok", authHeader := none, authToken := some "atok" }

/-- A `BaseRedisService` whose construction found the backend up. -/
def stConnected : RedisServiceState :=
  { clientPresent := true, isRedisAvailable := true }

/-! ## Theorems -/

/-- C1 counterexample: the end-to-end scenario token decodes to
`{sub: 42, username: "alice", roles: ["admin"]}` under the configured
secret and is presented via `Authorization: Bearer`, yet the identity
context attached by `AuthMiddleware.authenticate` has username `user_42`,
not the token's username claim `alice` (and the attached record carries no
role set at all), refuting the claim as stated. -/
theorem C1_counterexample :
    verifierA "tokA" = .ok payAlice ∧ payAlice.username = some "alice" ∧
    payAlice.roles = some ["admin"] ∧
    AuthMiddleware.extractToken reqBearerA = some "tokA" ∧
    (AuthMiddleware.authenticate verifierA reqBearerA).user =
      some { id := some 42, username := "user_42" } ∧
    (AuthMiddleware.authenticate verifierA reqBearerA).user.map ReqUser.username ≠
      some "alice" := by
  refine ⟨rfl, rfl, rfl, ?_, ?_, ?_⟩ <;> decide

/-- C1 (amended): for every request from which a token is extracted that
verifies under the configured secret to payload `p`,
`AuthMiddleware.authenticate` attaches the identity context
`{id := p.sub, username := "user_" ++ p.sub}` (ignoring the token's
username and roles claims), sends no error status, and invokes the
downstream handler exactly once. -/
theorem C1_amended_identity (verify : JwtVerifier) (req : HttpRequest)
    (token : String) (payload : DecodedPayload)
    (hex : AuthMiddleware.extractToken req = some token)
    (hv : verify token = .ok payload) :
    AuthMiddleware.authenticate verify req =
      { status := none, message := none
        user := some { id := payload.sub
                       username := "user_" ++ jsShowOptInt payload.sub }
        nextCalls := 1 } := by
  simp [AuthMiddleware.authenticate, AuthMiddleware.verifyToken, hex, hv]

/-- C1 witness: the amended theorem evaluated on the end-to-end scenario
token. -/
theorem C1_witness :
    AuthMiddleware.authenticate verifierA reqBearerA =
      { status := none, message := none
        user := some { id := some 42, username := "user_42" }
        nextCalls := 1 } :=
  C1_amended_identity verifierA reqBearerA "tokA" payAlice (by decide) rfl

/-- C5: the required-mode gate sends 401 and never calls the downstream
handler when no token is extracted, when the extracted token verifies to
nothing (any thrown error during `jwt.verify` is collapsed to that case),
and attaches the identity context and calls the handler exactly once on
verification success only. -/
theorem C5_required_gate (verify : JwtVerifier) (req : HttpRequest) :
    (AuthMiddleware.extractToken req = none →
      AuthMiddleware.authenticate verify req =
        { status := some 401, message := some "Access token required"
          user := none, nextCalls := 0 }) ∧
    (∀ token, AuthMiddleware.extractToken req = some token →
      AuthMiddleware.verifyToken verify token = none →
      AuthMiddleware.authenticate verify req =
        { status := some 401, message := some "Invalid or expired token"
          user := none, nextCalls := 0 }) ∧
    (∀ token e, AuthMiddleware.extractToken req = some token →
      verify token = .error e →
      AuthMiddleware.authenticate verify req =
        { status := some 401, message := some "Invalid or expired token"
          user := none, nextCalls := 0 }) ∧
    (∀ token payload, AuthMiddleware.extractToken req = some token →
      AuthMiddleware.verifyToken verify token = some payload →
      AuthMiddleware.authenticate verify req =
        { status := none, message := none
          user := some { id := payload.sub
                         username := "user_" ++ jsShowOptInt payload.sub }
          nextCalls := 1 }) := by
  refine ⟨fun hex => ?_, fun token hex hv => ?_, fun token e hex hv => ?_,
          fun token payload hex hv => ?_⟩
  · simp [AuthMiddleware.authenticate, hex]
  · simp [AuthMiddleware.authenticate, hex, hv]
  · simp [AuthMiddleware.authenticate, AuthMiddleware.verifyToken, hex, hv]
  · simp [AuthMiddleware.authenticate, hex, hv]

/-- C5 witness: the 401 branch on a tokenless request and the success branch
on the scenario token, both through the gate theorem. -/
theorem C5_witness :
    AuthMiddleware.authenticate verifierA reqEmpty =
      { status := some 401, message := some "Access token required"
        user := none, nextCalls := 0 } ∧
    AuthMiddleware.authenticate verifierA reqBearerA =
      { status := none, message := none
        user := some { id := some 42, username := "user_42" }
        nextCalls := 1 } :=
  ⟨(C5_required_gate verifierA reqEmpty).1 rfl,
   (C5_required_gate verifierA reqBearerA).2.2.2 "tokA" payAlice (by decide) rfl⟩

/-- C7 counterexample: a handshake carrying both an auth-payload token
(`atok`) and a query-string token (`qtok`) makes
`WebSocketAuthMiddleware.extractToken` return the query-string token, not
the auth-payload token the claim requires. -/
theorem C7_counterexample :
    handshakeBoth.authToken = some "atok" ∧
    handshakeBoth.queryToken = some "qtok" ∧
    WebSocketAuthMiddleware.extractToken handshakeBoth = some "qtok" ∧
    WebSocketAuthMiddleware.extractToken handshakeBoth ≠ some "atok" := by
  refine ⟨rfl, rfl, ?_, ?_⟩ <;> decide

/-- C7 (amended): socket token extraction takes, first match winning, the
query-string parameter (when a truthy string), then the
`Authorization: Bearer` header (case-sensitive, stripping exactly that
prefix), then the handshake auth-payload field; so the header is consulted
before the auth-payload field, but the query-string parameter is consulted
before both. -/
theorem C7_amended_extraction_order (h : Handshake) :
    (jsTruthyStr h.queryToken = true →
      WebSocketAuthMiddleware.extractToken h = h.queryToken) ∧
    (∀ ah, jsTruthyStr h.queryToken = false → h.authHeader = some ah →
      startsWithBearer ah = true →
      WebSocketAuthMiddleware.extractToken h = some (ah.drop 7)) ∧
    (∀ ah, jsTruthyStr h.queryToken = false → h.authHeader = some ah →
      startsWithBearer ah = false →
      WebSocketAuthMiddleware.extractToken h = h.authToken) ∧
    (jsTruthyStr h.queryToken = false → h.authHeader = none →
      WebSocketAuthMiddleware.extractToken h = h.authToken) := by
  refine ⟨fun hq => ?_, fun ah hq hh hb => ?_, fun ah hq hh hb => ?_,
          fun hq hh => ?_⟩
  · simp [WebSocketAuthMiddleware.extractToken, hq]
  · simp [WebSocketAuthMiddleware.extractToken, hq, hh, hb]
  · simp [WebSocketAuthMiddleware.extractToken, hq, hh, hb]
  · simp [WebSocketAuthMiddleware.extractToken, hq, hh]

/-- C7 witness: the extraction-order theorem evaluated on concrete
handshakes for each branch. -/
theorem C7_witness :
    WebSocketAuthMiddleware.extractToken handshakeBoth = some "qtok" ∧
    WebSocketAuthMiddleware.extractToken
      { queryToken := none, authHeader := some "Bearer htok", authToken := some "atok" } =
      some "htok" ∧
    WebSocketAuthMiddleware.extractToken
      { queryToken := none, authHeader := none, authToken := some "atok" } =
      some "atok" :=
  ⟨(C7_amended_extraction_order handshakeBoth).1 rfl,
   (C7_amended_extraction_order _).2.1 "Bearer htok" rfl rfl (by decide),
   (C7_amended_extraction_order _).2.2.2 rfl rfl⟩

/-- C8 counterexample: a signed token decoding to a payload with no subject
(`sub` and `userId` both absent) passes the HTTP-variant
`AuthMiddleware.verifyToken` — it returns the payload instead of the
failure outcome the claim requires. -/
theorem C8_counterexample :
    payNoSub.sub = none ∧ payNoSub.userId = none ∧
    verifierB "tokB" = .ok payNoSub ∧
    AuthMiddleware.verifyToken verifierB "tokB" = some payNoSub :=
  ⟨rfl, rfl, rfl, rfl⟩

/-- C8 (amended): the socket-variant verifier rejects a signature-valid
token whose payload lacks a truthy `userId` or a truthy `username`, while
the HTTP-variant verifier performs no required-field check at all: it
returns whatever payload `jwt.verify` produced. -/
theorem C8_amended_required_fields :
    (∀ (verify : JwtVerifier) (nowMs : Int) (token : String) (p : DecodedPayload),
      verify token = .ok p →
      (jsTruthyStr p.userId = false →
        WebSocketAuthMiddleware.verifyToken verify nowMs token = none) ∧
      (jsTruthyStr p.username = false →
        WebSocketAuthMiddleware.verifyToken verify nowMs token = none)) ∧
    (∀ (verify : JwtVerifier) (token : String) (p : DecodedPayload),
      verify token = .ok p →
      AuthMiddleware.verifyToken verify token = some p) := by
  refine ⟨fun verify nowMs token p hv => ⟨fun hu => ?_, fun hn => ?_⟩,
          fun verify token p hv => ?_⟩
  · simp [WebSocketAuthMiddleware.verifyToken, hv, hu]
  · simp [WebSocketAuthMiddleware.verifyToken, hv, hn]
  · simp [AuthMiddleware.verifyToken, hv]

/-- C8 witness: the amended theorem evaluated on the no-subject token for
both variants. -/
theorem C8_witness :
    WebSocketAuthMiddleware.verifyToken verifierB 0 "tokB" = none ∧
    AuthMiddleware.verifyToken verifierB "tokB" = some payNoSub :=
  ⟨(C8_amended_required_fields.1 verifierB 0 "tokB" payNoSub rfl).1 rfl,
   C8_amended_required_fields.2 verifierB "tokB" payNoSub rfl⟩

/-- C9: `WebSocketAuthMiddleware.hasPermission` is false whenever the socket
is unauthenticated or has no user; on an authenticated socket with a user it
is true exactly when the required permission is in the user's permission
list or the user's role list contains `admin`. -/
theorem C9_hasPermission_admin_override (s : AuthenticatedSocket) (p : String) :
    ((s.isAuthenticated = false ∨ s.user = none) →
      WebSocketAuthMiddleware.hasPermission s p = false) ∧
    (∀ u, s.user = some u → s.isAuthenticated = true →
      (WebSocketAuthMiddleware.hasPermission s p = true ↔
        p ∈ u.permissions ∨ "admin" ∈ u.roles)) := by
  constructor
  · intro h
    rcases h with h | h
    · cases hu : s.user <;> simp [WebSocketAuthMiddleware.hasPermission, h, hu]
    · simp [WebSocketAuthMiddleware.hasPermission, h]
  · intro u hu ha
    simp [WebSocketAuthMiddleware.hasPermission, hu, ha]

/-- C9 witness: an admin socket with an empty permission list has every
permission; an unauthenticated socket has none. -/
theorem C9_witness :
    WebSocketAuthMiddleware.hasPermission socketAdmin "drone.control" = true ∧
    WebSocketAuthMiddleware.hasPermission socketAnon "drone.control" = false :=
  ⟨((C9_hasPermission_admin_override socketAdmin "drone.control").2
      _ rfl rfl).mpr (Or.inr (by decide)),
   (C9_hasPermission_admin_override socketAnon "drone.control").1 (Or.inl rfl)⟩

/-- C2 counterexample: an identity context is attached (`{id: 0}`, as the
required-mode gate produces for a verified token with `sub = 0`) and the
permission lookup answers `false`, yet `requirePermission` responds 401,
not the 403 the claim requires for the identity-present case — the guard
`!req.user || !req.user.id` treats the falsy id `0` as unauthenticated. -/
theorem C2_counterexample :
    (some userZero ≠ (none : Option ReqUser)) ∧
    svcDenyOne userZero.id "drone.view" = .ok false ∧
    (PermissionMiddleware.requirePermission svcDenyOne "drone.view"
      (some userZero)).status = some 401 ∧
    (PermissionMiddleware.requirePermission svcDenyOne "drone.view"
      (some userZero)).status ≠ some 403 := by
  refine ⟨by decide, rfl, ?_, ?_⟩ <;> decide

/-- C2 (amended): for each of the four authorizer middlewares, a request
whose identity context is absent or carries a falsy (absent or `0`) id gets
401 (`USER_NOT_AUTHENTICATED`) without the handler running; with a truthy
identity, a `false` answer from the lookup service gets 403 carrying the
specific unmet requirement, a thrown lookup error gets 500 (fail closed),
and only a `true` answer invokes the downstream handler — the three
statuses are never conflated. -/
theorem C2_amended_authorizer_statuses
    (svcP svcR : Option Int → String → Except String Bool)
    (svcAny svcAll : Option Int → List String → Except String Bool)
    (name role : String) (names : List String) (user : Option ReqUser) :
    (PermissionMiddleware.userGuardFails user = true →
      PermissionMiddleware.requirePermission svcP name user =
        PermissionMiddleware.resp401 ∧
      PermissionMiddleware.requireAnyPermission svcAny names user =
        PermissionMiddleware.resp401 ∧
      PermissionMiddleware.requireAllPermissions svcAll names user =
        PermissionMiddleware.resp401 ∧
      PermissionMiddleware.requireRole svcR role user =
        PermissionMiddleware.resp401) ∧
    (PermissionMiddleware.userGuardFails user = false →
      ((svcP (user.bind ReqUser.id) name = .ok false →
         PermissionMiddleware.requirePermission svcP name user =
           { status := some 403, errorCode := some "INSUFFICIENT_PERMISSIONS"
             requiredInfo := [name], nextCalled := false }) ∧
       (∀ e, svcP (user.bind ReqUser.id) name = .error e →
         PermissionMiddleware.requirePermission svcP name user =
           { status := some 500, errorCode := some "PERMISSION_CHECK_ERROR"
             requiredInfo := [], nextCalled := false }) ∧
       (svcP (user.bind ReqUser.id) name = .ok true →
         PermissionMiddleware.requirePermission svcP name user =
           { status := none, errorCode := none
             requiredInfo := [], nextCalled := true })) ∧
      ((svcAny (user.bind ReqUser.id) names = .ok false →
         PermissionMiddleware.requireAnyPermission svcAny names user =
           { status := some 403, errorCode := some "INSUFFICIENT_PERMISSIONS"
             requiredInfo := names, nextCalled := false }) ∧
       (∀ e, svcAny (user.bind ReqUser.id) names = .error e →
         PermissionMiddleware.requireAnyPermission svcAny names user =
           { status := some 500, errorCode := some "PERMISSION_CHECK_ERROR"
             requiredInfo := [], nextCalled := false }) ∧
       (svcAny (user.bind ReqUser.id) names = .ok true →
         PermissionMiddleware.requireAnyPermission svcAny names user =
           { status := none, errorCode := none
             requiredInfo := [], nextCalled := true })) ∧
      ((svcAll (user.bind ReqUser.id) names = .ok false →
         PermissionMiddleware.requireAllPermissions svcAll names user =
           { status := some 403, errorCode := some "INSUFFICIENT_PERMISSIONS"
             requiredInfo := names, nextCalled := false }) ∧
       (∀ e, svcAll (user.bind ReqUser.id) names = .error e →
         PermissionMiddleware.requireAllPermissions svcAll names user =
           { status := some 500, errorCode := some "PERMISSION_CHECK_ERROR"
             requiredInfo := [], nextCalled := false }) ∧
       (svcAll (user.bind ReqUser.id) names = .ok true →
         PermissionMiddleware.requireAllPermissions svcAll names user =
           { status := none, errorCode := none
             requiredInfo := [], nextCalled := true })) ∧
      ((svcR (user.bind ReqUser.id) role = .ok false →
         PermissionMiddleware.requireRole svcR role user =
           { status := some 403, errorCode := some "INSUFFICIENT_ROLE"
             requiredInfo := [role], nextCalled := false }) ∧
       (∀ e, svcR (user.bind ReqUser.id) role = .error e →
         PermissionMiddleware.requireRole svcR role user =
           { status := some 500, errorCode := some "ROLE_CHECK_ERROR"
             requiredInfo := [], nextCalled := false }) ∧
       (svcR (user.bind ReqUser.id) role = .ok true →
         PermissionMiddleware.requireRole svcR role user =
           { status := none, errorCode := none
             requiredInfo := [], nextCalled := true }))) := by
  constructor
  · intro hg
    refine ⟨?_, ?_, ?_, ?_⟩ <;>
      simp [PermissionMiddleware.requirePermission,
            PermissionMiddleware.requireAnyPermission,
            PermissionMiddleware.requireAllPermissions,
            PermissionMiddleware.requireRole, hg]
  · intro hg
    refine ⟨⟨fun h => ?_, fun e h => ?_, fun h => ?_⟩,
            ⟨fun h => ?_, fun e h => ?_, fun h => ?_⟩,
            ⟨fun h => ?_, fun e h => ?_, fun h => ?_⟩,
            ⟨fun h => ?_, fun e h => ?_, fun h => ?_⟩⟩ <;>
      simp [PermissionMiddleware.requirePermission,
            PermissionMiddleware.requireAnyPermission,
            PermissionMiddleware.requireAllPermissions,
            PermissionMiddleware.requireRole, hg, h]

/-- C2 witness: the amended theorem evaluated at concrete users and lookup
stubs — 401 with no identity, 403 on a denied permission, 500 on a thrown
lookup, handler run on a granted role. -/
theorem C2_witness :
    PermissionMiddleware.requirePermission svcDenyOne "drone.view" none =
      PermissionMiddleware.resp401 ∧
    PermissionMiddleware.requirePermission svcDenyOne "drone.view" (some userSeven) =
      { status := some 403, errorCode := some "INSUFFICIENT_PERMISSIONS"
        requiredInfo := ["drone.view"], nextCalled := false } ∧
    PermissionMiddleware.requireAllPermissions svcThrowMany ["a", "b"] (some userSeven) =
      { status := some 500, errorCode := some "PERMISSION_CHECK_ERROR"
        requiredInfo := [], nextCalled := false } ∧
    PermissionMiddleware.requireRole svcGrantOne "admin" (some userSeven) =
      { status := none, errorCode := none, requiredInfo := [], nextCalled := true } :=
  ⟨((C2_amended_authorizer_statuses svcDenyOne svcGrantOne svcDenyMany svcThrowMany
      "drone.view" "admin" ["a", "b"] none).1 rfl).1,
   ((C2_amended_authorizer_statuses svcDenyOne svcGrantOne svcDenyMany svcThrowMany
      "drone.view" "admin" ["a", "b"] (some userSeven)).2 rfl).1.1 rfl,
   ((C2_amended_authorizer_statuses svcDenyOne svcGrantOne svcDenyMany svcThrowMany
      "drone.view" "admin" ["a", "b"] (some userSeven)).2 rfl).2.2.1.2.1 "db down" rfl,
   ((C2_amended_authorizer_statuses svcDenyOne svcGrantOne svcDenyMany svcThrowMany
      "drone.view" "admin" ["a", "b"] (some userSeven)).2 rfl).2.2.2.2.2 rfl⟩

/-- C3: `addToBlacklist` writes the revocation entry under the key
`jwt_blacklist:` + sha256hex(token) — never the raw token — with
TTL `max(expiresAt - now, 1)` seconds, and a store error is propagated to
the caller unchanged, never swallowed. -/
theorem C3_addToBlacklist_key_ttl_propagation (sha256hex : String → String)
    (now : Int) (st : RedisStore) (token : String) (expiresAt : Int)
    (reason : String) :
    (st.failing = true →
      JwtBlacklistService.addToBlacklist sha256hex now st token expiresAt reason =
        .error "redis unavailable") ∧
    (st.failing = false →
      ∃ st', JwtBlacklistService.addToBlacklist sha256hex now st token expiresAt
               reason = .ok st' ∧
        st'.failing = false ∧
        st'.entries.find?
            (fun e => e.1 = JwtBlacklistService.keyPrefix ++ sha256hex token) =
          some (JwtBlacklistService.keyPrefix ++ sha256hex token,
                max (expiresAt - now) 1,
                { reason := reason, blacklistedAt := now, expiresAt := expiresAt })) := by
  constructor
  · intro hf
    simp [JwtBlacklistService.addToBlacklist, redisSetEx, hf]
  · intro hf
    obtain ⟨f, entries⟩ := st
    subst hf
    exact ⟨_, rfl, rfl, by simp [List.find?, JwtBlacklistService.getRedisKey]⟩

/-- C3 witness: the theorem evaluated on a healthy store and on a failing
store. -/
theorem C3_witness :
    (JwtBlacklistService.addToBlacklist hashH 100 storeDown "t1" 160 "logout" =
      .error "redis unavailable") ∧
    ∃ st', JwtBlacklistService.addToBlacklist hashH 100 storeOk "t1" 160 "logout" =
             .ok st' ∧
      st'.failing = false ∧
      st'.entries.find? (fun e => e.1 = JwtBlacklistService.keyPrefix ++ hashH "t1") =
        some (JwtBlacklistService.keyPrefix ++ hashH "t1", 60,
              { reason := "logout", blacklistedAt := 100, expiresAt := 160 }) :=
  ⟨(C3_addToBlacklist_key_ttl_propagation hashH 100 storeDown "t1" 160 "logout").1 rfl,
   by
    have h := (C3_addToBlacklist_key_ttl_propagation hashH 100 storeOk
                 "t1" 160 "logout").2 rfl
    simpa using h⟩

/-- C4: `isBlacklisted` returns true exactly when the store read succeeds
with a hit under the token's hashed key; whenever the store read throws,
it returns false (fail open) instead of propagating the error. -/
theorem C4_isBlacklisted_fail_open (sha256hex : String → String)
    (st : RedisStore) (token : String) :
    (st.failing = true →
      JwtBlacklistService.isBlacklisted sha256hex st token = false) ∧
    (st.failing = false →
      (JwtBlacklistService.isBlacklisted sha256hex st token = true ↔
        (st.entries.find?
          (fun e => e.1 = JwtBlacklistService.getRedisKey sha256hex token)).isSome)) := by
  constructor
  · intro hf
    simp [JwtBlacklistService.isBlacklisted, redisGet, hf]
  · intro hf
    simp [JwtBlacklistService.isBlacklisted, redisGet, hf]

/-- C4 witness: fail-open on a failing store; a hit on a store holding the
entry; a miss on an empty store. -/
theorem C4_witness :
    JwtBlacklistService.isBlacklisted hashH storeDown "t1" = false ∧
    JwtBlacklistService.isBlacklisted hashH storeWithT1 "t1" = true ∧
    JwtBlacklistService.isBlacklisted hashH storeOk "t1" = false :=
  ⟨(C4_isBlacklisted_fail_open hashH storeDown "t1").1 rfl,
   ((C4_isBlacklisted_fail_open hashH storeWithT1 "t1").2 rfl).mpr (by decide),
   by
    have h := (C4_isBlacklisted_fail_open hashH storeOk "t1").2 rfl
    simpa [storeOk] using h⟩

/-- C6 counterexample: a connected helper observes an operational error
(the operation throws); afterwards `isRedisEnabled()` still returns true
and the next operation still touches the backend — there is no sticky
`Connected → Unavailable` transition. -/
theorem C6_counterexample :
    BaseRedisService.isRedisEnabled stConnected = true ∧
    (BaseRedisService.safeRedisOperation stConnected
      (Except.error "boom" : Except String Nat) 0).value = 0 ∧
    BaseRedisService.isRedisEnabled
      (BaseRedisService.safeRedisOperation stConnected
        (Except.error "boom" : Except String Nat) 0).state = true ∧
    (BaseRedisService.safeRedisOperation
      (BaseRedisService.safeRedisOperation stConnected
        (Except.error "boom" : Except String Nat) 0).state
      (Except.ok 5 : Except String Nat) 0).touchedBackend = true := by
  refine ⟨rfl, rfl, rfl, rfl⟩

/-- C6 (amended): the availability state is fixed at construction and
changes only through `reconnectRedis()` (which re-runs initialization): an
operation run while the helper is unavailable returns its fallback without
touching the backend, an operational error makes that call return its
fallback, and no `safeRedisOperation` call — succeeding, failing or skipped
— ever changes the availability state. -/
theorem C6_amended_availability {α : Type} (st : RedisServiceState)
    (op : Except String α) (fb : α) (envOk : Bool) (e : String) :
    (BaseRedisService.safeRedisOperation st op fb).state = st ∧
    (BaseRedisService.getRedisClient st = false →
      BaseRedisService.safeRedisOperation st op fb =
        { value := fb, state := st, touchedBackend := false }) ∧
    (op = .error e → (BaseRedisService.safeRedisOperation st op fb).value = fb) ∧
    BaseRedisService.construct envOk = BaseRedisService.initializeRedisConnection envOk ∧
    BaseRedisService.reconnectRedis envOk st =
      ((BaseRedisService.initializeRedisConnection envOk).isRedisAvailable,
       BaseRedisService.initializeRedisConnection envOk) := by
  refine ⟨?_, fun hc => ?_, fun he => ?_, rfl, rfl⟩
  · by_cases hc : BaseRedisService.getRedisClient st <;>
      cases op <;> simp [BaseRedisService.safeRedisOperation, hc]
  · simp [BaseRedisService.safeRedisOperation, hc]
  · subst he
    by_cases hc : BaseRedisService.getRedisClient st <;>
      simp [BaseRedisService.safeRedisOperation, hc]

/-- C6 witness: the amended theorem evaluated on the connected state with a
throwing operation, and on the state produced by a failed construction. -/
theorem C6_witness :
    (BaseRedisService.safeRedisOperation stConnected
      (Except.error "boom" : Except String Nat) 7).state = stConnected ∧
    (BaseRedisService.safeRedisOperation stConnected
      (Except.error "boom" : Except String Nat) 7).value = 7 ∧
    BaseRedisService.safeRedisOperation (BaseRedisService.construct false)
      (Except.ok 5 : Except String Nat) 7 =
      { value := 7, state := BaseRedisService.construct false
        touchedBackend := false } :=
  ⟨(C6_amended_availability stConnected (Except.error "boom") 7 true "boom").1,
   (C6_amended_availability stConnected (Except.error "boom") 7 true "boom").2.2.1 rfl,
   (C6_amended_availability (BaseRedisService.construct false) (Except.ok 5) 7
      false "boom").2.1 rfl⟩

/-- Ceiling-division characterization, upper half: the value
`(t + s - 1) / s` computed by `successPaginated` covers `t` items. -/
theorem mathCeilDiv_mul_ge (t s : Nat) (hs : 0 < s) :
    t ≤ ResResult.mathCeilDiv t s * s := by
  unfold ResResult.mathCeilDiv
  by_contra hcon
  push_neg at hcon
  set q := (t + s - 1) / s with hq
  have hmul : (q + 1) * s = q * s + s := Nat.succ_mul q s
  have h2 : (q + 1) * s ≤ t + s - 1 := by omega
  have h3 : q + 1 ≤ q := (Nat.le_div_iff_mul_le hs).mpr h2
  omega

/-- Ceiling-division characterization, lower half: `(t + s - 1) / s` is the
least page count whose pages cover `t` items. -/
theorem mathCeilDiv_le_of_mul_ge (t s m : Nat) (hs : 0 < s)
    (hm : t ≤ m * s) : ResResult.mathCeilDiv t s ≤ m := by
  unfold ResResult.mathCeilDiv
  have hmul : (m + 1) * s = m * s + s := Nat.succ_mul m s
  have h2 : t + s - 1 < (m + 1) * s := by omega
  exact Nat.lt_succ_iff.mp ((Nat.div_lt_iff_lt_mul hs).mpr h2)

/-- C10: for `pageSize > 0`, `successPaginated` yields status 200 with a
pagination record echoing the arguments, `totalPages` equal to the ceiling
of `totalCount / pageSize` (characterized as the least page count covering
`totalCount`), `hasNext = (currentPage < totalPages)` and
`hasPrevious = (currentPage > 1)`. -/
theorem C10_successPaginated {α : Type} (message : String) (data : List α)
    (currentPage pageSize totalCount : Nat) (hps : 0 < pageSize) :
    ResResult.successPaginated message data currentPage pageSize totalCount =
      { status := 200, message := message, data := some data
        pagination := some
          { currentPage := currentPage, pageSize := pageSize
            totalCount := totalCount
            totalPages := ResResult.mathCeilDiv totalCount pageSize
            hasNext :=
              decide (currentPage < ResResult.mathCeilDiv totalCount pageSize)
            hasPrevious := decide (1 < currentPage) } } ∧
    totalCount ≤ ResResult.mathCeilDiv totalCount pageSize * pageSize ∧
    ∀ m : Nat, totalCount ≤ m * pageSize →
      ResResult.mathCeilDiv totalCount pageSize ≤ m :=
  ⟨rfl, mathCeilDiv_mul_ge totalCount pageSize hps,
   fun m hm => mathCeilDiv_le_of_mul_ge totalCount pageSize m hps hm⟩

/-- C10 witness: page 1 of 150 items at 20 per page — totalPages 8,
hasNext true, hasPrevious false. -/
theorem C10_witness :
    ResResult.successPaginated "ok" [0, 1] 1 20 150 =
      { status := 200, message := "ok", data := some [0, 1]
        pagination := some
          { currentPage := 1, pageSize := 20, totalCount := 150
            totalPages := 8, hasNext := true, hasPrevious := false } } ∧
    (150 : Nat) ≤ 8 * 20 ∧ ResResult.mathCeilDiv 150 20 ≤ 8 :=
  ⟨(C10_successPaginated "ok" [0, 1] 1 20 150 (by decide)).1, by decide,
   (C10_successPaginated "ok" [0, 1] 1 20 150 (by decide)).2.2 8 (by decide)⟩

end Aiot
